import Mathlib

/-!
Shallow embedding of the Excel-AI agent core (workspace registry,
schema registry, argument normalizer, tool-process client, execution
orchestrator) together with theorems settling the specification claims.

Python dictionaries are embedded as association lists with Python's
insertion-order semantics: an insert of an existing key overwrites the
value in place, an insert of a fresh key appends at the end.  Paths are
strings; the filesystem state is the list of file names present in the
single workspace root directory (the program's filesystem contract keeps
every managed file directly under that root).  Exceptions are embedded
as `Except` results.
-/

set_option autoImplicit false

namespace ExcelAI

/-! ## Python dictionary model (insertion-ordered association lists) -/

/-- Lookup in a Python dict: first binding of the key (keys are unique
when the dict is built with `dictInsert`). -/
def dictLookup {α : Type} : List (String × α) → String → Option α
  | [], _ => none
  | (k, v) :: rest, key => if k = key then some v else dictLookup rest key

/-- Assignment `d[k] = v` on a Python dict: overwrite in place if the key exists,
otherwise append the new binding at the end. -/
def dictInsert {α : Type} : List (String × α) → String → α → List (String × α)
  | [], key, v => [(key, v)]
  | (k, w) :: rest, key, v =>
      if k = key then (key, v) :: rest else (k, w) :: dictInsert rest key v

/-- Deletion `del d[k]` on a Python dict. -/
def dictErase {α : Type} (d : List (String × α)) (key : String) : List (String × α) :=
  d.filter (fun kv => kv.1 ≠ key)

/-- Membership `k in d` on a Python dict. -/
def dictMem {α : Type} (d : List (String × α)) (key : String) : Bool :=
  (dictLookup d key).isSome

/-- Build a Python dict from a sequence of bindings (later bindings of
the same key overwrite earlier ones, as in a dict comprehension). -/
def dictOf {α : Type} (l : List (String × α)) : List (String × α) :=
  l.foldl (fun d kv => dictInsert d kv.1 kv.2) []

/-! ## Python string primitives used by the workspace manager -/

/-- Python whitespace characters recognised by `str.strip()`. -/
def pyIsSpace (c : Char) : Bool :=
  c = ' ' || c = '\t' || c = '\n' || c = '\r' || c = '\x0b' || c = '\x0c'

/-- Python `str.strip()`: remove leading and trailing whitespace. -/
def pyStrip (s : String) : String :=
  String.mk ((s.data.dropWhile pyIsSpace).reverse.dropWhile pyIsSpace |>.reverse)

/-- One left-to-right, non-overlapping pass of
`str.replace("  ", " ")` over the character list. -/
def replaceDoubleSpace : List Char → List Char
  | [] => []
  | [c] => [c]
  | c1 :: c2 :: rest =>
      if c1 = ' ' && c2 = ' ' then ' ' :: replaceDoubleSpace rest
      else c1 :: replaceDoubleSpace (c2 :: rest)

/-- ASCII lowercasing of one character (`str.lower()`; the managed
filenames are ASCII). -/
def lowerChar (c : Char) : Char :=
  if 'A' ≤ c && c ≤ 'Z' then Char.ofNat (c.toNat + 32) else c

/-- Python `str.lower()`. -/
def strLower (s : String) : String :=
  String.mk (s.data.map lowerChar)

/-- Python `str.endswith(suffix)`. -/
def strEndsWith (s suffix : String) : Bool :=
  s.data.reverse.take suffix.data.length == suffix.data.reverse

/-- Split a character list at a separator character. -/
def splitOnChar (sep : Char) : List Char → List (List Char)
  | [] => [[]]
  | c :: rest =>
      match splitOnChar sep rest with
      | [] => [[]]
      | g :: gs => if c = sep then [] :: g :: gs else (c :: g) :: gs

/-- Python `Path(s).name`: the component after the last slash (for the
slash-normal inputs this program passes around). -/
def pyPathName (s : String) : String :=
  String.mk (((splitOnChar '/' s.data).reverse).headD [])

/-- The path `str(WORKSPACE_ROOT / name)` for `WORKSPACE_ROOT = /excel_files`. -/
def rootJoin (name : String) : String :=
  "/excel_files/" ++ name

/-! ## WorkspaceManager (src/app/agent/workspace_manager.py) -/

/-- The persisted workspace state: `files` maps canonical filename to
absolute path, `active_file` is the optional canonical name of the
active workbook. -/
structure WState where
  files : List (String × String)
  active : Option String
  deriving Repr, DecidableEq

/-- Exceptions the workspace code can raise. -/
inductive PyErr where
  /-- A `RecoverableWorkspaceError` with its message. -/
  | recoverable (msg : String)
  /-- A `FatalWorkspaceError` with its message. -/
  | fatal (msg : String)
  /-- A `KeyError` from a Python dict lookup of an absent key. -/
  | keyError (key : String)
  /-- An `OSError` from a failed `os.rename`. -/
  | osError
  /-- An `AttributeError` or `TypeError` from applying a string operation to a
  non-string value. -/
  | typeError
  deriving Repr, DecidableEq

/-- Method `WorkspaceManager._canonical_name`: a `strip()`, one pass of
`replace("  ", " ")`, then append `.xlsx` unless the lowercased name
already ends with it. -/
def canonical_name (filename : String) : String :=
  let t := pyStrip filename
  let t := String.mk (replaceDoubleSpace t.data)
  if strEndsWith (strLower t) ".xlsx" then t else t ++ ".xlsx"

/-- The listing `WORKSPACE_ROOT.glob("*.xlsx")` over a workspace directory listing:
the names with the `.xlsx` extension (glob matching is case-sensitive). -/
def globXlsx (disk : List String) : List String :=
  disk.filter (fun n => strEndsWith n ".xlsx")

/-- Method `WorkspaceManager._reconcile_filesystem`: drop registry entries whose
name is no longer on disk, then register disk files not yet tracked.
`active_file` is not touched. -/
def reconcile_filesystem (disk : List String) (st : WState) : WState :=
  let existing := dictOf ((globXlsx disk).map (fun n => (n, rootJoin n)))
  let files1 := st.files.filter (fun kv => dictMem existing kv.1)
  let files2 := existing.foldl
    (fun fs kv => if dictMem fs kv.1 then fs else fs ++ [kv]) files1
  { files := files2, active := st.active }

/-- Method `WorkspaceManager.register_file`: canonicalize, bind the canonical
name to the workspace-root-joined path, make it active, return the path. -/
def register_file (st : WState) (filename : String) : WState × String :=
  let canonical := canonical_name filename
  let full_path := rootJoin canonical
  ({ files := dictInsert st.files canonical full_path,
     active := some canonical }, full_path)

/-- Does the absolute path denote a file present in the workspace
directory?  (`Path.exists()`, under the program's contract that all
managed files live directly in the workspace root.) -/
def pathExistsOn (disk : List String) (path : String) : Bool :=
  disk.any (fun n => rootJoin n = path)

/-- Method `WorkspaceManager.rename_file`.  Here `renameOk` is the oracle for the
`os.rename` call itself (its failure raises an `OSError`).  Returns the
state after the call together with the normal or exceptional result. -/
def rename_file (renameOk : Bool) (disk : List String) (st : WState)
    (old_name new_name : String) : WState × Except PyErr String :=
  let old1 := pyPathName old_name
  let new1 := pyPathName new_name
  let old_canon := canonical_name old1
  let new_canon := canonical_name new1
  match dictLookup st.files old_canon with
  | none => (st, .error (.recoverable ("File not tracked: " ++ old1)))
  | some old_path =>
      let new_path := rootJoin new_canon
      if ¬ pathExistsOn disk old_path then
        (st, .error (.fatal ("Physical file missing: " ++ old_path)))
      else if ¬ renameOk then
        (st, .error .osError)
      else
        ({ files := dictInsert (dictErase st.files old_canon) new_canon new_path,
           active := some new_canon }, .ok new_path)

/-- Method `WorkspaceManager.get_active_file`: it is `None` when the pointer is unset
or empty, otherwise the raw dict lookup `files[active]`, which raises
`KeyError` when the key is absent. -/
def get_active_file (st : WState) : Except PyErr (Option String) :=
  match st.active with
  | none => .ok none
  | some a =>
      if a = "" then .ok none
      else
        match dictLookup st.files a with
        | some p => .ok (some p)
        | none => .error (.keyError a)

/-- Method `WorkspaceManager.resolve_file`.  Here `suggest` models
`difflib.get_close_matches` (only used to build the not-found message).
Returns the state after the call and the normal or exceptional result. -/
def resolve_file (suggest : String → List String → Option String)
    (disk : List String) (st : WState) (filename : Option String) :
    WState × Except PyErr String :=
  let fn : Option String :=
    match filename with
    | none => none
    | some f => if f = "" then some f else some (pyPathName f)
  let st1 := reconcile_filesystem disk st
  match fn with
  | none =>
      match get_active_file st1 with
      | .error e => (st1, .error e)
      | .ok (some p) => (st1, .ok p)
      | .ok none => (st1, .error (.recoverable "No active workbook available"))
  | some f =>
      if f = "" then
        match get_active_file st1 with
        | .error e => (st1, .error e)
        | .ok (some p) => (st1, .ok p)
        | .ok none => (st1, .error (.recoverable "No active workbook available"))
      else
        let canon := canonical_name f
        let existing_files := dictOf ((globXlsx disk).map (fun n => (strLower n, n)))
        match dictLookup existing_files (strLower canon) with
        | none =>
            let msg :=
              match suggest canon (st1.files.map (fun kv => kv.1)) with
              | some s =>
                  "File \x27" ++ f ++ "\x27 not found. Did you mean \x27" ++ s ++ "\x27?"
              | none => "File \x27" ++ f ++ "\x27 not found"
            (st1, .error (.recoverable msg))
        | some real_name =>
            let real_path := rootJoin real_name
            ({ files := dictInsert st1.files real_name real_path,
               active := some real_name }, .ok real_path)

/-! ## ToolRegistry (src/app/agent/tool_registry.py) -/

/-- A JSON-compatible argument value as carried in a tool-call proposal;
`vnull` is Python's `None`. -/
inductive PyValue where
  | vnull
  | vstr (s : String)
  | vint (n : Int)
  | vbool (b : Bool)
  | vlist (xs : List String)
  deriving Repr, DecidableEq

/-- Table `ToolRegistry.TOOL_SCHEMAS`: tool name to its required fields. -/
def TOOL_SCHEMAS : List (String × List String) :=
  [ ("create_workbook", ["filepath"]),
    ("rename_workbook", ["old_filepath", "new_filepath"]),
    ("create_worksheet", ["filepath", "sheet_name"]),
    ("create_multiple_worksheets", ["filepath", "sheet_names"]),
    ("get_workbook_metadata", ["filepath"]),
    ("write_data_to_excel", ["filepath", "sheet_name", "data"]),
    ("read_data_from_excel", ["filepath", "sheet_name"]),
    ("format_range", ["filepath", "sheet_name", "start_cell"]),
    ("merge_cells", ["filepath", "sheet_name", "start_cell", "end_cell"]),
    ("unmerge_cells", ["filepath", "sheet_name", "start_cell", "end_cell"]),
    ("get_merged_cells", ["filepath", "sheet_name"]),
    ("apply_formula", ["filepath", "sheet_name", "cell", "formula"]),
    ("validate_formula_syntax", ["filepath", "sheet_name", "cell", "formula"]),
    ("create_chart",
      ["filepath", "sheet_name", "data_range", "chart_type", "target_cell"]),
    ("create_pivot_table",
      ["filepath", "sheet_name", "data_range", "target_cell", "rows", "values"]),
    ("create_table", ["filepath", "sheet_name", "data_range"]),
    ("copy_worksheet", ["filepath", "source_sheet", "target_sheet"]),
    ("delete_worksheet", ["filepath", "sheet_name"]),
    ("rename_worksheet", ["filepath", "old_name", "new_name"]),
    ("copy_range",
      ["filepath", "sheet_name", "source_start", "source_end", "target_start"]),
    ("delete_range", ["filepath", "sheet_name", "start_cell", "end_cell"]),
    ("validate_excel_range", ["filepath", "sheet_name", "start_cell"]),
    ("get_data_validation_info", ["filepath", "sheet_name"]),
    ("insert_rows", ["filepath", "sheet_name", "start_row"]),
    ("insert_columns", ["filepath", "sheet_name", "start_col"]),
    ("delete_sheet_rows", ["filepath", "sheet_name", "start_row"]),
    ("delete_sheet_columns", ["filepath", "sheet_name", "start_col"]) ]

/-- Is the required field absent from the argument dict or bound to
Python `None`? -/
def fieldMissing (args : List (String × PyValue)) (field : String) : Bool :=
  match dictLookup args field with
  | none => true
  | some .vnull => true
  | some _ => false

/-- Python `repr` of a list of strings, as interpolated into the
missing-fields message by the f-string. -/
def pyReprStrList (l : List String) : String :=
  "[" ++ String.intercalate ", " (l.map (fun s => "\x27" ++ s ++ "\x27")) ++ "]"

/-- Method `ToolRegistry.validate_tool_call`: unknown tool, or the list of
required fields that are absent or `None`. -/
def validate_tool_call (tool_name : String) (arguments : List (String × PyValue)) :
    Bool × String :=
  match dictLookup TOOL_SCHEMAS tool_name with
  | none => (false, "Unknown tool: " ++ tool_name)
  | some required =>
      let missing := required.filter (fun f => fieldMissing arguments f)
      if missing.isEmpty then (true, "")
      else (false, "Missing required fields: " ++ pyReprStrList missing)

/-! ## Argument normalizer (src/app/agent/tool_normalizer.py) -/

/-- Table `ALIAS_MAP`: synonymous argument keys to canonical field names. -/
def ALIAS_MAP : List (String × String) :=
  [ ("workbook", "filepath"),
    ("workbook_name", "filepath"),
    ("file", "filepath"),
    ("old_file", "old_filepath"),
    ("new_file", "new_filepath"),
    ("worksheet", "sheet_name"),
    ("worksheet_name", "sheet_name"),
    ("sheet", "sheet_name"),
    ("sheets", "sheet_names"),
    ("worksheets", "sheet_names"),
    ("names", "sheet_names") ]

/-- Lookup `ALIAS_MAP.get(key, key)`: the canonical name of an argument key. -/
def aliasKey (key : String) : String :=
  (dictLookup ALIAS_MAP key).getD key

/-- The key-canonicalization loop of `normalize_arguments`:
`for key, value in args.items(): normalized[ALIAS_MAP.get(key, key)] = value`,
starting from an empty dict. -/
def normalizeKeys (args : List (String × PyValue)) : List (String × PyValue) :=
  args.foldl (fun acc kv => dictInsert acc (aliasKey kv.1) kv.2) []

/-! ## JSON extraction (src/app/agent/utils.py) -/

/-- A parsed JSON document. -/
inductive Json where
  | jnull
  | jbool (b : Bool)
  | jnum (n : Int)
  | jstr (s : String)
  | jarr (elems : List Json)
  | jobj (fields : List (String × Json))
  deriving Repr

/-- JSON insignificant whitespace. -/
def skipWs (cs : List Char) : List Char :=
  cs.dropWhile (fun c => c = ' ' || c = '\t' || c = '\n' || c = '\r')

/-- Parse the body of a JSON string literal (opening quote already
consumed), handling the single-character escapes. -/
def parseStringBody : List Char → List Char → Option (String × List Char)
  | [], _ => none
  | c :: rest, acc =>
      if c = '"' then some (String.mk acc.reverse, rest)
      else if c = '\\' then
        match rest with
        | [] => none
        | e :: rest2 =>
            if e = '"' then parseStringBody rest2 ('"' :: acc)
            else if e = '\\' then parseStringBody rest2 ('\\' :: acc)
            else if e = '/' then parseStringBody rest2 ('/' :: acc)
            else if e = 'n' then parseStringBody rest2 ('\n' :: acc)
            else if e = 't' then parseStringBody rest2 ('\t' :: acc)
            else if e = 'r' then parseStringBody rest2 ('\r' :: acc)
            else if e = 'b' then parseStringBody rest2 ('\x08' :: acc)
            else if e = 'f' then parseStringBody rest2 ('\x0c' :: acc)
            else none
      else parseStringBody rest (c :: acc)

/-- Parse a JSON integer (this model restricts numbers to integers,
the only numeric form the program exchanges). -/
def parseIntLit (cs : List Char) : Option (Int × List Char) :=
  let (neg, cs1) := match cs with
    | '-' :: rest => (true, rest)
    | _ => (false, cs)
  let digits := cs1.takeWhile Char.isDigit
  let rest := cs1.dropWhile Char.isDigit
  if digits.isEmpty then none
  else
    match rest with
    | '.' :: _ => none
    | 'e' :: _ => none
    | 'E' :: _ => none
    | _ =>
        let n : Nat := digits.foldl (fun a c => a * 10 + (c.toNat - 48)) 0
        some (if neg then -(n : Int) else (n : Int), rest)

mutual

/-- Parse one JSON value.  Models Python `json.loads` restricted to the
JSON subset this program exchanges (objects, arrays, strings with simple
escapes, integers, booleans, null). -/
def parseValue : Nat → List Char → Option (Json × List Char)
  | 0, _ => none
  | fuel + 1, cs =>
      match skipWs cs with
      | '\x7b' :: rest =>
          (match skipWs rest with
           | '\x7d' :: rest2 => some (.jobj [], rest2)
           | _ => parseMembers fuel rest [])
      | '[' :: rest =>
          (match skipWs rest with
           | ']' :: rest2 => some (.jarr [], rest2)
           | _ => parseElems fuel rest [])
      | '"' :: rest =>
          (parseStringBody rest []).map (fun sr => (.jstr sr.1, sr.2))
      | 't' :: 'r' :: 'u' :: 'e' :: rest => some (.jbool true, rest)
      | 'f' :: 'a' :: 'l' :: 's' :: 'e' :: rest => some (.jbool false, rest)
      | 'n' :: 'u' :: 'l' :: 'l' :: rest => some (.jnull, rest)
      | other => (parseIntLit other).map (fun nr => (.jnum nr.1, nr.2))

/-- Parse the members of a JSON object after its opening brace. -/
def parseMembers : Nat → List Char → List (String × Json) →
    Option (Json × List Char)
  | 0, _, _ => none
  | fuel + 1, cs, acc =>
      match skipWs cs with
      | '"' :: rest =>
          match parseStringBody rest [] with
          | none => none
          | some (key, r1) =>
              match skipWs r1 with
              | ':' :: r2 =>
                  match parseValue fuel r2 with
                  | none => none
                  | some (v, r3) =>
                      match skipWs r3 with
                      | ',' :: r4 => parseMembers fuel r4 (acc ++ [(key, v)])
                      | '\x7d' :: r4 => some (.jobj (acc ++ [(key, v)]), r4)
                      | _ => none
              | _ => none
      | _ => none

/-- Parse the elements of a JSON array after its opening bracket. -/
def parseElems : Nat → List Char → List Json → Option (Json × List Char)
  | 0, _, _ => none
  | fuel + 1, cs, acc =>
      match parseValue fuel cs with
      | none => none
      | some (v, r1) =>
          match skipWs r1 with
          | ',' :: r2 => parseElems fuel r2 (acc ++ [v])
          | ']' :: r2 => some (.jarr (acc ++ [v]), r2)
          | _ => none

end

/-- Python `json.loads`: parse a complete JSON document, requiring only
trailing whitespace after the value. -/
def json_loads (s : String) : Option Json :=
  match parseValue (3 * s.length + 3) s.data with
  | none => none
  | some (j, rest) => if (skipWs rest).isEmpty then some j else none

/-- Index of the first occurrence of a character (`str.find`). -/
def pyFindChar (target : Char) : List Char → Option Nat
  | [] => none
  | c :: rest =>
      if c = target then some 0
      else (pyFindChar target rest).map (· + 1)

/-- The brace-depth scan of `extract_json_from_text`: starting from the
first opening brace, the relative index at which the depth returns to
zero, if it ever does. -/
def braceScan : List Char → Nat → Int → Option Nat
  | [], _, _ => none
  | c :: rest, i, depth =>
      if c = '\x7b' then braceScan rest (i + 1) (depth + 1)
      else if c = '\x7d' then
        (if depth - 1 = 0 then some i else braceScan rest (i + 1) (depth - 1))
      else braceScan rest (i + 1) depth

/-- Function `extract_json_from_text`: locate the first balanced brace-delimited
span and parse exactly that span; empty input, no opening brace,
an unbalanced scan, or a parse failure all yield `none`. -/
def extract_json_from_text (text : String) : Option Json :=
  if text = "" then none
  else
    match pyFindChar '\x7b' text.data with
    | none => none
    | some start =>
        let tail := text.data.drop start
        match braceScan tail 0 0 with
        | none => none
        | some relEnd => json_loads (String.mk (tail.take (relEnd + 1)))

/-! ## ExcelMCPClient (src/app/mcp/excel_mcp_client.py) -/

/-- The parsed JSON-RPC response to a `tools/call` request, abstracted
to the fields `call_tool` inspects: an optional top-level `error`, the
optional `text` of the first content item, and the `isError` flag. -/
structure RpcResp where
  rpcError : Option String
  contentText : Option String
  isAppError : Bool
  deriving Repr, DecidableEq

/-- What one `stdin.write` of a `tools/call` request does: either the
pipe is broken, or a response line arrives and parses to `resp`. -/
inductive WriteOutcome where
  | brokenPipe
  | delivered (resp : RpcResp)
  deriving Repr, DecidableEq

/-- The response-processing tail of `call_tool` (lines 153-166): an
`error` field fails with its text; otherwise the first content item's
text, defaulting to `"Success"`, succeeds unless `isError` is set. -/
def handleResp (r : RpcResp) : Bool × String :=
  match r.rpcError with
  | some e => (false, e)
  | none =>
      let content := r.contentText.getD "Success"
      if r.isAppError then (false, content) else (true, content)

/-- Method `ExcelMCPClient.call_tool`, driven by a script: `writes` gives the
outcome of each successive write attempt, `restarts` whether each
successive `_restart`'s re-handshake leaves the client initialized.
The result carries the number of restarts performed; `none` models a
run that exhausts the script or the fuel. -/
def call_tool : Nat → Bool → List WriteOutcome → List Bool →
    Option ((Bool × String) × Nat)
  | 0, _, _, _ => none
  | _ + 1, false, _, _ => some ((false, "Client not initialized"), 0)
  | fuel + 1, true, writes, restarts =>
      match writes with
      | [] => none
      | .delivered r :: _ => some (handleResp r, 0)
      | .brokenPipe :: ws =>
          match restarts with
          | [] => none
          | b :: bs =>
              (call_tool fuel b ws bs).map (fun rn => (rn.1, rn.2 + 1))

/-! ## ExcelAgent.execute_with_retry (src/app/agent/excel_agent.py) -/

/-- The outcome of one iteration of the retry loop body, abstracting
the LLM call, normalization, validation and dispatch of that attempt. -/
inductive AttemptOutcome where
  /-- Step `get_llm_decision` produced no usable proposal. -/
  | llmFail
  /-- Validation or the sheet guard rejected the call with this error. -/
  | invalid (msg : String)
  /-- Dispatch ran and the tool reported success with this result. -/
  | toolOk (msg : String)
  /-- Dispatch ran and the tool reported failure with this result. -/
  | toolFail (msg : String)
  /-- The body raised `RecoverableWorkspaceError`. -/
  | recoverableErr (msg : String)
  /-- The body raised `FatalWorkspaceError`. -/
  | fatalErr (msg : String)
  /-- The body raised some other, unexpected exception. -/
  | unexpected (msg : String)

/-- How the `try` block of `execute_with_retry` terminates. -/
inductive LoopRes where
  /-- A `return` statement inside the loop. -/
  | returned (ok : Bool) (msg : String)
  /-- The attempt bound was exhausted, with the last recorded error. -/
  | exhausted (lastErr : Option String)
  /-- An exception propagated out of the loop body. -/
  | raised (msg : String)
  deriving Repr, DecidableEq

/-- The `for _ in range(MAX_RETRIES)` loop of `execute_with_retry`:
`n` attempts remain, `i` is the attempt index, `err` the last error. -/
def retryLoop (outcomes : Nat → AttemptOutcome) : Nat → Nat → Option String → LoopRes
  | 0, _, err => .exhausted err
  | n + 1, i, _ =>
      match outcomes i with
      | .llmFail => retryLoop outcomes n (i + 1) (some "LLM failed to produce valid JSON")
      | .invalid m => retryLoop outcomes n (i + 1) (some m)
      | .toolFail m => retryLoop outcomes n (i + 1) (some m)
      | .toolOk m => .returned true m
      | .recoverableErr m => retryLoop outcomes n (i + 1) (some m)
      | .fatalErr m => .returned false ("Fatal workspace error: " ++ m)
      | .unexpected m => .raised m

/-- Python `f"{error}"` where `error` may still be `None`. -/
def renderLastErr : Option String → String
  | none => "None"
  | some s => s

/-- Constant `ExcelAgent.MAX_RETRIES`. -/
def MAX_RETRIES : Nat := 3

/-- Method `ExcelAgent.execute_with_retry`: acquire the workspace lock, run
the retry loop inside `try`, release the lock in `finally`, then either
re-raise, return the loop's result, or return the exhaustion failure.
The first component is whether the lock is still held on termination;
the second is the normal or exceptional result. -/
def execute_with_retry (outcomes : Nat → AttemptOutcome) :
    Bool × Except String (Bool × String) :=
  let lockHeld := true
  let body := retryLoop outcomes MAX_RETRIES 0 none
  let lockAfterFinally := lockHeld && false
  match body with
  | .returned ok msg => (lockAfterFinally, .ok (ok, msg))
  | .raised m => (lockAfterFinally, .error m)
  | .exhausted err =>
      (lockAfterFinally, .ok (false, "Max retries exceeded. Last error: " ++ renderLastErr err))

/-- The `create_workbook` arm of the dispatch step (excel_agent.py lines
234-247): register the proposed file with the workspace, then call the
tool process with a fresh argument dict holding only the registered
path under `filepath`.  Returns the new workspace state, the registered
path, and the argument dict sent to the process. -/
def create_workbook_dispatch (st : WState) (arguments : List (String × PyValue)) :
    Except PyErr (WState × String × List (String × PyValue)) :=
  match dictLookup arguments "filepath" with
  | none => .error (.keyError "filepath")
  | some (.vstr raw) =>
      let reg := register_file st raw
      .ok (reg.1, reg.2, [("filepath", .vstr reg.2)])
  | some _ => .error .typeError

/-! ## Dictionary lemmas -/

theorem dictLookup_insert_self {α : Type} (d : List (String × α)) (k : String) (v : α) :
    dictLookup (dictInsert d k v) k = some v := by
  induction d with
  | nil => simp [dictInsert, dictLookup]
  | cons kv rest ih =>
      obtain ⟨k1, v1⟩ := kv
      by_cases h : k1 = k
      · simp [dictInsert, h, dictLookup]
      · simp [dictInsert, h, dictLookup, ih]

theorem dictLookup_insert_ne {α : Type} (d : List (String × α)) (k k' : String) (v : α)
    (h : k' ≠ k) : dictLookup (dictInsert d k v) k' = dictLookup d k' := by
  have h2 : ¬(k = k') := fun e => h e.symm
  induction d with
  | nil => simp [dictInsert, dictLookup, h2]
  | cons kv rest ih =>
      obtain ⟨k1, v1⟩ := kv
      by_cases h1 : k1 = k
      · subst h1
        simp [dictInsert, dictLookup, h2]
      · simp [dictInsert, h1, dictLookup, ih]

theorem dictLookup_erase_self {α : Type} (d : List (String × α)) (k : String) :
    dictLookup (dictErase d k) k = none := by
  induction d with
  | nil => simp [dictErase, dictLookup]
  | cons kv rest ih =>
      obtain ⟨k1, v1⟩ := kv
      by_cases h : k1 = k
      · simpa [dictErase, List.filter_cons, h] using ih
      · simpa [dictErase, List.filter_cons, h, dictLookup] using ih

theorem dictLookup_erase_ne {α : Type} (d : List (String × α)) (k k' : String)
    (h : k' ≠ k) : dictLookup (dictErase d k) k' = dictLookup d k' := by
  have h2 : ¬(k = k') := fun e => h e.symm
  induction d with
  | nil => simp [dictErase, dictLookup]
  | cons kv rest ih =>
      obtain ⟨k1, v1⟩ := kv
      by_cases h1 : k1 = k
      · subst h1
        simpa [dictErase, List.filter_cons, dictLookup, h2] using ih
      · by_cases h3 : k1 = k'
        · simp [dictErase, List.filter_cons, h1, dictLookup, h3, h]
        · simpa [dictErase, List.filter_cons, h1, dictLookup, h3, h] using ih

/-! ## Helper lemmas -/

theorem pyFindChar_eq_none (target : Char) (cs : List Char)
    (h : ∀ c ∈ cs, c ≠ target) : pyFindChar target cs = none := by
  induction cs with
  | nil => rfl
  | cons c rest ih =>
      have hc : ¬(c = target) := h c (List.mem_cons_self c rest)
      simp [pyFindChar, hc, ih (fun x hx => h x (List.mem_cons_of_mem c hx))]

theorem call_tool_brokenPipe_step (fuel : Nat) (b : Bool) (ws : List WriteOutcome)
    (bs : List Bool) :
    call_tool (fuel + 1) true (.brokenPipe :: ws) (b :: bs) =
      (call_tool fuel b ws bs).map (fun rn => (rn.1, rn.2 + 1)) := rfl

theorem fieldMissing_iff (args : List (String × PyValue)) (f : String) :
    fieldMissing args f = true ↔
      dictLookup args f = none ∨ dictLookup args f = some .vnull := by
  unfold fieldMissing
  rcases h : dictLookup args f with _ | v
  · simp
  · cases v <;> simp

/-! ## Claim theorems -/

/-- C3.  The spec's invariant "`active_file`, if set, must be a key of
`files`" is broken by the code: `_reconcile_filesystem` deletes the
registry entry of a file that vanished from disk but never clears
`active_file`, after which `get_active_file` performs a raw lookup of
the absent key and raises `KeyError`.  Failing input: registry tracking
`a.xlsx` as active while the disk no longer holds it. -/
theorem reconcile_breaks_active_invariant :
    reconcile_filesystem [] ⟨[("a.xlsx", "/excel_files/a.xlsx")], some "a.xlsx"⟩ =
      ⟨[], some "a.xlsx"⟩ ∧
    dictLookup (reconcile_filesystem []
      ⟨[("a.xlsx", "/excel_files/a.xlsx")], some "a.xlsx"⟩).files "a.xlsx" = none ∧
    get_active_file (reconcile_filesystem []
      ⟨[("a.xlsx", "/excel_files/a.xlsx")], some "a.xlsx"⟩) =
      .error (.keyError "a.xlsx") :=
  ⟨rfl, rfl, rfl⟩

/-- C4.  `_canonical_name` is not idempotent: a single pass of
`replace("  ", " ")` turns the three interior spaces of `"a   b"` into
two, so a second application still collapses further —
`canonical_name "a   b" = "a  b.xlsx"` but applying the function again
yields `"a b.xlsx"`, and doubled interior spaces survive one call. -/
theorem canonical_name_not_idempotent :
    canonical_name "a   b" = "a  b.xlsx" ∧
    canonical_name (canonical_name "a   b") = "a b.xlsx" ∧
    canonical_name (canonical_name "a   b") ≠ canonical_name "a   b" := by
  refine ⟨rfl, rfl, ?_⟩
  decide

/-- C6.  `extract_json_from_text` parses the first balanced
brace-delimited object of
`"blah {"a": {"b": 1}} trailing"` to `{"a": {"b": 1}}`; it returns
`none` on every input without an opening brace, and `none` on every
input whose brace-depth scan never returns to zero. -/
theorem extract_json_from_text_spec :
    extract_json_from_text "blah \x7b\"a\": \x7b\"b\": 1\x7d\x7d trailing" =
      some (.jobj [("a", Json.jobj [("b", Json.jnum 1)])]) ∧
    (∀ s : String, (∀ c ∈ s.data, c ≠ '\x7b') → extract_json_from_text s = none) ∧
    (∀ (s : String) (start : Nat), pyFindChar '\x7b' s.data = some start →
      braceScan (s.data.drop start) 0 0 = none → extract_json_from_text s = none) := by
  refine ⟨rfl, ?_, ?_⟩
  · intro s h
    by_cases hs : s = ""
    · simp [extract_json_from_text, hs]
    · simp [extract_json_from_text, hs, pyFindChar_eq_none '\x7b' s.data h]
  · intro s start hfind hscan
    by_cases hs : s = ""
    · simp [extract_json_from_text, hs]
    · simp [extract_json_from_text, hs, hfind, hscan]

/-- Witness for C6: the no-brace and never-balancing cases at concrete
inputs. -/
theorem extract_json_from_text_spec_witness :
    extract_json_from_text "no braces here" = none ∧
    extract_json_from_text "\x7b\x7b\"a\": 1\x7d" = none := by
  constructor
  · exact extract_json_from_text_spec.2.1 "no braces here" (by decide)
  · exact extract_json_from_text_spec.2.2 "\x7b\x7b\"a\": 1\x7d" 0 (by decide) (by decide)

/-- C8.  `execute_with_retry` releases the workspace lock on every exit
path — tool success, fatal workspace error, exhaustion of the attempt
bound, and an unexpected exception propagating out of the loop body —
because the whole retry loop sits in a `try` whose `finally` performs
the release. -/
theorem execute_with_retry_releases_lock :
    (∀ outcomes : Nat → AttemptOutcome, (execute_with_retry outcomes).1 = false) ∧
    execute_with_retry (fun _ => .toolOk "done") = (false, .ok (true, "done")) ∧
    execute_with_retry (fun _ => .fatalErr "disk gone") =
      (false, .ok (false, "Fatal workspace error: disk gone")) ∧
    execute_with_retry (fun _ => .unexpected "boom") = (false, .error "boom") ∧
    execute_with_retry (fun _ => .llmFail) =
      (false, .ok (false,
        "Max retries exceeded. Last error: LLM failed to produce valid JSON")) := by
  refine ⟨?_, rfl, rfl, rfl, rfl⟩
  intro outcomes
  rcases h : retryLoop outcomes MAX_RETRIES 0 none with _ | _ | _ <;>
    simp [execute_with_retry, h]

/-- C10.  In the key-canonicalization loop of `normalize_arguments`,
two raw keys that alias to the same canonical key silently collide:
the key iterated last wins (`{"workbook": v1, "file": v2}` normalizes
to `filepath ↦ v2`), in general the last entry of the raw mapping
always ends up bound at its canonical key, and the loop is total — no
collision is ever reported. -/
theorem normalize_arguments_last_alias_wins :
    (∀ v1 v2 : PyValue,
      normalizeKeys [("workbook", v1), ("file", v2)] = [("filepath", v2)]) ∧
    (∀ (args : List (String × PyValue)) (k : String) (v : PyValue),
      dictLookup (normalizeKeys (args ++ [(k, v)])) (aliasKey k) = some v) := by
  constructor
  · intro v1 v2
    rfl
  · intro args k v
    have h : normalizeKeys (args ++ [(k, v)]) =
        dictInsert (normalizeKeys args) (aliasKey k) v := by
      simp [normalizeKeys, List.foldl_append]
    rw [h, dictLookup_insert_self]

/-- C2 counterexample.  Two consecutive broken pipes make `call_tool`
restart twice: with a write script whose first two writes break the
pipe and whose third is answered, the call succeeds after exactly two
restarts, so the retried call's broken pipe does trigger a further
restart and retry, contradicting the claimed at-most-one bound. -/
theorem call_tool_two_broken_pipes_two_restarts :
    call_tool 5 true
      [.brokenPipe, .brokenPipe, .delivered ⟨none, some "done", false⟩]
      [true, true] = some ((true, "done"), 2) ∧
    ¬ (2 ≤ 1) :=
  ⟨rfl, by decide⟩

/-- C2 amended.  On a broken-pipe write failure `call_tool` restarts
the process and retries the same call, and it does so again on every
subsequent broken pipe, with no bound on the number of restarts: `n`
leading broken pipes produce `n` restarts before the response is
processed.  A retry whose preceding restart failed to re-handshake
returns the not-initialized failure without restarting again. -/
theorem call_tool_restarts_unboundedly :
    (∀ (n : Nat) (r : RpcResp),
      call_tool (n + 1) true
        (List.replicate n .brokenPipe ++ [.delivered r])
        (List.replicate n true) = some (handleResp r, n)) ∧
    (∀ n : Nat,
      call_tool (n + 2) true
        (List.replicate (n + 1) .brokenPipe)
        (List.replicate n true ++ [false]) =
        some ((false, "Client not initialized"), n + 1)) := by
  constructor
  · intro n r
    induction n with
    | zero => rfl
    | succ m ih =>
        simp only [List.replicate_succ, List.cons_append, call_tool_brokenPipe_step]
        rw [ih]
        rfl
  · intro n
    induction n with
    | zero => rfl
    | succ m ih =>
        simp only [List.replicate_succ, List.cons_append, call_tool_brokenPipe_step] at ih ⊢
        rw [ih]
        rfl

/-- C7.  After `register_file "Budget"` with `Budget.xlsx` present in
the workspace root, `resolve_file (some "budget.xlsx")` matches
case-insensitively and returns exactly the path `register_file`
produced, the same path the active-file fallback
`resolve_file none` returns; and since the resolution re-registers the
same file and re-activates it, the agreement persists across the
resolutions themselves (for any similarity-suggestion function). -/
theorem register_resolve_agreement :
    ∀ suggest : String → List String → Option String,
      (resolve_file suggest ["Budget.xlsx"]
        (register_file ⟨[], none⟩ "Budget").1 (some "budget.xlsx")).2 =
          .ok (register_file ⟨[], none⟩ "Budget").2 ∧
      (resolve_file suggest ["Budget.xlsx"]
        (register_file ⟨[], none⟩ "Budget").1 none).2 =
          .ok (register_file ⟨[], none⟩ "Budget").2 ∧
      (resolve_file suggest ["Budget.xlsx"]
        (resolve_file suggest ["Budget.xlsx"]
          (register_file ⟨[], none⟩ "Budget").1 (some "budget.xlsx")).1 none).2 =
          .ok (register_file ⟨[], none⟩ "Budget").2 := by
  intro suggest
  exact ⟨rfl, rfl, rfl⟩

/-- C9.  The `create_workbook` arm of the dispatch forwards exactly one
argument to the tool process: the dict it sends holds the registered
path under `filepath` and nothing else, and every other argument of the
normalized proposal is absent from it. -/
theorem create_workbook_dispatch_single_arg :
    ∀ (st : WState) (arguments : List (String × PyValue)) (f : String),
      dictLookup arguments "filepath" = some (.vstr f) →
      create_workbook_dispatch st arguments =
        .ok ((register_file st f).1, (register_file st f).2,
             [("filepath", .vstr (register_file st f).2)]) ∧
      (∀ k, k ≠ "filepath" →
        dictLookup [("filepath", PyValue.vstr (register_file st f).2)] k = none) := by
  intro st arguments f h
  constructor
  · simp [create_workbook_dispatch, h, register_file]
  · intro k hk
    have h2 : ¬("filepath" = k) := fun e => hk e.symm
    simp [dictLookup, h2]

/-- C5.  For a registered tool, `validate_tool_call` fails exactly when
some required field is absent from the argument mapping or bound to
`None`; its failure message renders the list of all such fields, and
every missing field occurs in that list; a tool name outside the schema
table fails with the unknown-tool message.  (The embedded check is a
pure function of its two arguments.) -/
theorem validate_tool_call_spec :
    (∀ (tool : String) (required : List String) (args : List (String × PyValue)),
      dictLookup TOOL_SCHEMAS tool = some required →
        (((validate_tool_call tool args).1 = false) ↔
          ∃ f ∈ required,
            dictLookup args f = none ∨ dictLookup args f = some .vnull) ∧
        ((validate_tool_call tool args).1 = false →
          (validate_tool_call tool args).2 =
            "Missing required fields: " ++
              pyReprStrList (required.filter (fun f => fieldMissing args f))) ∧
        (∀ f ∈ required,
          (dictLookup args f = none ∨ dictLookup args f = some .vnull) →
          f ∈ required.filter (fun f => fieldMissing args f)) ∧
        ((validate_tool_call tool args).1 = true →
          validate_tool_call tool args = (true, ""))) ∧
    (∀ (tool : String) (args : List (String × PyValue)),
      dictLookup TOOL_SCHEMAS tool = none →
        validate_tool_call tool args = (false, "Unknown tool: " ++ tool)) := by
  constructor
  · intro tool required args h
    have hval : validate_tool_call tool args =
        (if (required.filter (fun f => fieldMissing args f)).isEmpty then (true, "")
         else (false, "Missing required fields: " ++
            pyReprStrList (required.filter (fun f => fieldMissing args f)))) := by
      unfold validate_tool_call
      rw [h]
    have hiff : (∃ f ∈ required,
          dictLookup args f = none ∨ dictLookup args f = some .vnull) ↔
        required.filter (fun f => fieldMissing args f) ≠ [] := by
      constructor
      · rintro ⟨f, hf, hm⟩ hnil
        have hmem := List.mem_filter.mpr ⟨hf, (fieldMissing_iff args f).mpr hm⟩
        rw [hnil] at hmem
        exact (List.not_mem_nil f) hmem
      · intro hne
        obtain ⟨f, hmem⟩ := List.exists_mem_of_ne_nil _ hne
        obtain ⟨hf, hm⟩ := List.mem_filter.mp hmem
        exact ⟨f, hf, (fieldMissing_iff args f).mp hm⟩
    refine ⟨?_, ?_, ?_, ?_⟩
    · have hfst : (validate_tool_call tool args).1 = false ↔
          required.filter (fun f => fieldMissing args f) ≠ [] := by
        rw [hval]
        by_cases he : (required.filter (fun f => fieldMissing args f)).isEmpty
        · have hnil : required.filter (fun f => fieldMissing args f) = [] := by
            simpa [List.isEmpty_iff] using he
          simp [he, hnil]
        · have hnenil : required.filter (fun f => fieldMissing args f) ≠ [] := by
            simpa [List.isEmpty_iff] using he
          simp [he, hnenil]
      exact hfst.trans hiff.symm
    · rw [hval]
      by_cases he : (required.filter (fun f => fieldMissing args f)).isEmpty <;>
        simp [he]
    · intro f hf hm
      exact List.mem_filter.mpr ⟨hf, (fieldMissing_iff args f).mpr hm⟩
    · rw [hval]
      by_cases he : (required.filter (fun f => fieldMissing args f)).isEmpty <;>
        simp [he]
  · intro tool args h
    unfold validate_tool_call
    rw [h]

/-- Witness for C5: with no arguments, `create_workbook` fails listing
its one required field, and an unregistered tool name is rejected. -/
theorem validate_tool_call_spec_witness :
    (validate_tool_call "create_workbook" []).1 = false ∧
    (validate_tool_call "create_workbook" []).2 =
      "Missing required fields: [\x27filepath\x27]" ∧
    validate_tool_call "bogus_tool" [] = (false, "Unknown tool: bogus_tool") := by
  have h := validate_tool_call_spec.1 "create_workbook" ["filepath"] [] (by rfl)
  have hfail : (validate_tool_call "create_workbook" []).1 = false :=
    h.1.mpr ⟨"filepath", by simp, Or.inl rfl⟩
  exact ⟨hfail, (h.2.1 hfail).trans (by rfl),
    validate_tool_call_spec.2 "bogus_tool" [] (by rfl)⟩

/-- C1.  `rename_file`: an untracked canonical old name fails with the
recoverable file-not-tracked error; a tracked name whose registered
path is absent from disk fails with the fatal physical-file-missing
error; every failure (including a failed `os.rename`) leaves the
registry and the active pointer unchanged; success removes the old
key, binds the new canonical key to the workspace-root-joined path,
activates the new name, and returns the new path, leaving all other
keys untouched. -/
theorem rename_file_spec :
    ∀ (renameOk : Bool) (disk : List String) (st : WState) (old_name new_name : String),
      (dictLookup st.files (canonical_name (pyPathName old_name)) = none →
        rename_file renameOk disk st old_name new_name =
          (st, .error (.recoverable ("File not tracked: " ++ pyPathName old_name)))) ∧
      (∀ p, dictLookup st.files (canonical_name (pyPathName old_name)) = some p →
        pathExistsOn disk p = false →
        rename_file renameOk disk st old_name new_name =
          (st, .error (.fatal ("Physical file missing: " ++ p)))) ∧
      (∀ e, (rename_file renameOk disk st old_name new_name).2 = .error e →
        (rename_file renameOk disk st old_name new_name).1 = st) ∧
      (∀ p, dictLookup st.files (canonical_name (pyPathName old_name)) = some p →
        pathExistsOn disk p = true → renameOk = true →
        (rename_file renameOk disk st old_name new_name).2 =
          .ok (rootJoin (canonical_name (pyPathName new_name))) ∧
        (rename_file renameOk disk st old_name new_name).1.active =
          some (canonical_name (pyPathName new_name)) ∧
        dictLookup (rename_file renameOk disk st old_name new_name).1.files
            (canonical_name (pyPathName new_name)) =
          some (rootJoin (canonical_name (pyPathName new_name))) ∧
        (canonical_name (pyPathName old_name) ≠ canonical_name (pyPathName new_name) →
          dictLookup (rename_file renameOk disk st old_name new_name).1.files
            (canonical_name (pyPathName old_name)) = none) ∧
        (∀ k, k ≠ canonical_name (pyPathName old_name) →
          k ≠ canonical_name (pyPathName new_name) →
          dictLookup (rename_file renameOk disk st old_name new_name).1.files k =
            dictLookup st.files k)) := by
  intro renameOk disk st old_name new_name
  refine ⟨?_, ?_, ?_, ?_⟩
  · intro h
    simp [rename_file, h]
  · intro p hp hex
    simp [rename_file, hp, hex]
  · intro e
    rcases h : dictLookup st.files (canonical_name (pyPathName old_name)) with _ | p
    · simp [rename_file, h]
    · by_cases hex : pathExistsOn disk p
      · by_cases hro : renameOk
        · simp [rename_file, h, hex, hro]
        · simp [rename_file, h, hex, hro]
      · simp [rename_file, h, hex]
  · intro p hp hex hro
    subst hro
    have hall : rename_file true disk st old_name new_name =
        ({ files := dictInsert (dictErase st.files (canonical_name (pyPathName old_name)))
              (canonical_name (pyPathName new_name))
              (rootJoin (canonical_name (pyPathName new_name))),
           active := some (canonical_name (pyPathName new_name)) },
         .ok (rootJoin (canonical_name (pyPathName new_name)))) := by
      simp [rename_file, hp, hex]
    refine ⟨?_, ?_, ?_, ?_, ?_⟩
    · rw [hall]
    · rw [hall]
    · rw [hall]
      exact dictLookup_insert_self _ _ _
    · intro hne
      rw [hall]
      exact (dictLookup_insert_ne _ _ _ _ hne).trans (dictLookup_erase_self _ _)
    · intro k hk1 hk2
      rw [hall]
      exact (dictLookup_insert_ne _ _ _ _ hk2).trans (dictLookup_erase_ne _ _ _ hk1)

/-- Witness for C1: a successful rename of a tracked, on-disk file, and
the recoverable failure on an untracked name with the state unchanged. -/
theorem rename_file_spec_witness :
    (rename_file true ["a.xlsx"] ⟨[("a.xlsx", "/excel_files/a.xlsx")], some "a.xlsx"⟩
        "a.xlsx" "b").2 = .ok "/excel_files/b.xlsx" ∧
    (rename_file true ["a.xlsx"] ⟨[("a.xlsx", "/excel_files/a.xlsx")], some "a.xlsx"⟩
        "a.xlsx" "b").1.active = some "b.xlsx" ∧
    rename_file true [] ⟨[], none⟩ "c.xlsx" "d" =
      (⟨[], none⟩, .error (.recoverable "File not tracked: c.xlsx")) := by
  have h := rename_file_spec true ["a.xlsx"]
    ⟨[("a.xlsx", "/excel_files/a.xlsx")], some "a.xlsx"⟩ "a.xlsx" "b"
  have hs := h.2.2.2 "/excel_files/a.xlsx" (by rfl) (by rfl) rfl
  have h2 := (rename_file_spec true [] ⟨[], none⟩ "c.xlsx" "d").1 (by rfl)
  exact ⟨hs.1.trans (by rfl), hs.2.1.trans (by rfl), h2.trans (by rfl)⟩

/-- Witness for C9: a proposal carrying both `filepath` and
`sheet_name` is forwarded as the single registered-path argument. -/
theorem create_workbook_dispatch_single_arg_witness :
    create_workbook_dispatch ⟨[], none⟩
      [("filepath", .vstr "Sales"), ("sheet_name", .vstr "S1")] =
      .ok (⟨[("Sales.xlsx", "/excel_files/Sales.xlsx")], some "Sales.xlsx"⟩,
           "/excel_files/Sales.xlsx",
           [("filepath", .vstr "/excel_files/Sales.xlsx")]) ∧
    dictLookup [("filepath", PyValue.vstr "/excel_files/Sales.xlsx")] "sheet_name" = none := by
  have h := create_workbook_dispatch_single_arg ⟨[], none⟩
    [("filepath", .vstr "Sales"), ("sheet_name", .vstr "S1")] "Sales" (by rfl)
  exact ⟨h.1.trans (by rfl), h.2 "sheet_name" (by decide)⟩

end ExcelAI
